import Mathlib

/-!
# Verification of `pkg/internal/apis/config/encoding/load.go`

A shallow embedding of `Load`, `readAll`, `yamlUnmarshalStrict` and `typeMeta`
from `load.go`, followed by theorems about the loader's control flow.

Conventions of the embedding:

* Go strings are Lean `String`s (text), byte slices are lists of bytes.
* A Go `error` value is a `GoError`; a nil error is `none : Option GoError`.
* `Load` returns the Go pair `(*config.Cluster, error)` as a `LoadResult`, a
  pair of two independent options, so that "exactly one of the two is nil" is a
  property to be proved and not a property of the type.
* The file system and standard input are an explicit `Env`.
* Everything `load.go` imports from other packages (the YAML library, the
  `v1alpha3` and `config` packages) is not part of the embedded file and is
  taken as a parameter, collected in `Deps`.
* Every function also returns the list of collaborator calls it performed, in
  order (`Step`), so that "X is not run" can be stated.
-/

namespace Encoding

/-- Raw document contents, `[]byte` in the source. -/
abbrev Bytes := List (Fin 256)

/-- Go `error` values as seen by `load.go`: either an error that carries a
message of its own (what `errors.Errorf` builds, and what the YAML library or
the operating system hand back), or an error wrapping a cause with a context
string (what `errors.Wrap` builds). -/
inductive GoError where
  | new (msg : String)
  | wrapped (cause : GoError) (context : String)
  deriving DecidableEq, Repr

/-- The `Error()` method: a wrapped error prints its context, a colon and the
message of its cause. -/
def GoError.Error : GoError → String
  | .new msg => msg
  | .wrapped cause context => context ++ ": " ++ cause.Error

/-- The error a wrapped error keeps as its cause; an error that carries its
own message wraps nothing. -/
def GoError.Unwrap : GoError → Option GoError
  | .new _ => none
  | .wrapped cause _ => some cause

/-- Worker of `Sprintf` on the characters of the format. Only the verb `%s`
with string operands is interpreted, which is the only verb `load.go` uses:
each `%s` consumes the next operand and prints it verbatim; a `%s` with no
operand left prints `%!s(MISSING)`; every other character is copied. Operands
left over at the end of the format are not reported; `load.go` passes exactly
as many operands as its formats have verbs. -/
def sprintfChars : List Char → List String → List Char
  | [], _ => []
  | [c], _ => [c]
  | c :: d :: rest, args =>
    if c = '%' ∧ d = 's' then
      match args with
      | [] => "%!s(MISSING)".data ++ sprintfChars rest []
      | a :: args2 => a.data ++ sprintfChars rest args2
    else c :: sprintfChars (d :: rest) args

/-- The function `fmt.Sprintf`, restricted to the `%s` verb (see `sprintfChars`). -/
def Sprintf (format : String) (args : List String) : String :=
  ⟨sprintfChars format.data args⟩

/-- The function `errors.Errorf`: a fresh error whose message is the formatted string. -/
def Errorf (format : String) (args : List String) : GoError :=
  .new (Sprintf format args)

/-- The function `errors.Wrap` on a non-nil error (the only way `load.go` calls it). -/
def Wrap (err : GoError) (message : String) : GoError :=
  .wrapped err message

/-- The struct `typeMeta`: "basically metav1.TypeMeta, but with yaml tags". -/
structure typeMeta where
  Kind : String
  APIVersion : String
  deriving DecidableEq, Repr

/-- The file system and standard input as `readAll` sees them:
`ioutil.ReadAll(os.Stdin)` and `ioutil.ReadFile(path)`. -/
structure Env where
  stdin : Except GoError Bytes
  readFile : String → Except GoError Bytes

/-- What `load.go` imports from other packages. The types `v1alpha3.Cluster`
(`V1Cluster`) and `config.Cluster` (`Cluster`) are declared outside the
embedded file and stay abstract.

* `yamlUnmarshalTypeMeta raw` is `yaml.Unmarshal(raw, &tm)` for a fresh
  `tm : typeMeta`: the error, or the filled `tm`.
* `yamlDecodeCluster knownFields raw` is `yaml.NewDecoder(bytes.NewReader(raw))`
  followed by `KnownFields(knownFields)` and `Decode(cfg)` on a fresh
  `cfg : v1alpha3.Cluster`: the error, or the filled `cfg`.
* `v1alpha3SetDefaultsCluster` is `v1alpha3.SetDefaultsCluster`, which mutates
  its argument in place: the function from the old to the new value.
* `Convertv1alpha3` is `config.Convertv1alpha3`; it is taken to return a
  pointer to a cluster, never nil (the converter has no failure path).
* `zeroCluster` is the zero value `config.Cluster{}`.
* `SetDefaultsCluster` is `config.SetDefaultsCluster`, again in place. -/
structure Deps (V1Cluster Cluster : Type) where
  yamlUnmarshalTypeMeta : Bytes → Except GoError typeMeta
  yamlDecodeCluster : Bool → Bytes → Except GoError V1Cluster
  v1alpha3SetDefaultsCluster : V1Cluster → V1Cluster
  Convertv1alpha3 : V1Cluster → Cluster
  zeroCluster : Cluster
  SetDefaultsCluster : Cluster → Cluster

/-- One entry of the call log: a read of standard input, a read of a file, the
non-strict `yaml.Unmarshal` into `typeMeta`, reaching the `switch` on the
sniffed apiVersion, a `Decode` of the cluster (with its known-fields setting),
and the three functions of the `v1alpha3` and `config` packages. -/
inductive Step where
  | readStdin
  | readFile (path : String)
  | unmarshalTypeMeta (raw : Bytes)
  | switchAPIVersion (apiVersion : String)
  | decodeCluster (knownFields : Bool) (raw : Bytes)
  | v1alpha3SetDefaultsCluster
  | convertv1alpha3
  | setDefaultsCluster
  deriving DecidableEq, Repr

/-- The pair `(*config.Cluster, error)` returned by `Load`; `none` is nil. -/
structure LoadResult (Cluster : Type) where
  cluster : Option Cluster
  err : Option GoError

/-- The function `yamlUnmarshalStrict(raw, cfg)`: a decoder over `raw` with
`KnownFields(true)`, then `Decode`. -/
def yamlUnmarshalStrict {V1Cluster Cluster : Type} (deps : Deps V1Cluster Cluster)
    (raw : Bytes) : Except GoError V1Cluster × List Step :=
  (deps.yamlDecodeCluster true raw, [Step.decodeCluster true raw])

/-- The function `readAll(path)`: standard input if the path is `-`, the named file
otherwise; a failure is wrapped with the matching context. -/
def readAll (env : Env) (path : String) : Except GoError Bytes × List Step :=
  if path = "-" then
    match env.stdin with
    | .error err => (.error (Wrap err "error reading from stdin"), [Step.readStdin])
    | .ok raw => (.ok raw, [Step.readStdin])
  else
    match env.readFile path with
    | .error err => (.error (Wrap err "error reading file"), [Step.readFile path])
    | .ok raw => (.ok raw, [Step.readFile path])

/-- The function `Load(path)`, statement by statement, with the call log. -/
def Load {V1Cluster Cluster : Type} (deps : Deps V1Cluster Cluster) (env : Env)
    (path : String) : LoadResult Cluster × List Step :=
  -- special case: empty path -> default config
  if path = "" then
    (⟨some (deps.SetDefaultsCluster deps.zeroCluster), none⟩, [Step.setDefaultsCluster])
  else
    -- load the raw contents
    match readAll env path with
    | (.error err, t) => (⟨none, some err⟩, t)
    | (.ok raw, t) =>
      -- get kind & apiVersion
      match deps.yamlUnmarshalTypeMeta raw with
      | .error err =>
        (⟨none, some (Wrap err "could not determine kind / apiVersion for config")⟩,
          t ++ [Step.unmarshalTypeMeta raw])
      | .ok tm =>
        -- decode specific (apiVersion, kind)
        if tm.APIVersion = "kind.sigs.k8s.io/v1alpha3" then
          if tm.Kind ≠ "Cluster" then
            (⟨none, some (Errorf "unknown kind %s for apiVersion: %s" [tm.APIVersion, tm.Kind])⟩,
              t ++ [Step.unmarshalTypeMeta raw, Step.switchAPIVersion tm.APIVersion])
          else
            -- load version
            match yamlUnmarshalStrict deps raw with
            | (.error err, t2) =>
              (⟨none, some (Wrap err "unable to decode config")⟩,
                t ++ [Step.unmarshalTypeMeta raw, Step.switchAPIVersion tm.APIVersion] ++ t2)
            | (.ok cfg, t2) =>
              -- apply defaults for version and convert
              (⟨some (deps.Convertv1alpha3 (deps.v1alpha3SetDefaultsCluster cfg)), none⟩,
                t ++ [Step.unmarshalTypeMeta raw, Step.switchAPIVersion tm.APIVersion] ++ t2
                  ++ [Step.v1alpha3SetDefaultsCluster, Step.convertv1alpha3])
        else
          -- unknown apiVersion if we haven't already returned ...
          (⟨none, some (Errorf "unknown apiVersion: %s" [tm.APIVersion])⟩,
            t ++ [Step.unmarshalTypeMeta raw, Step.switchAPIVersion tm.APIVersion])

/-! ## A small concrete instance

A toy document format and toy cluster types on which `Load` can be evaluated.
A document is a list of bytes: the first byte stands for the `apiVersion` field,
the second for the `kind` field, every further byte for one more top-level
field (`1` is a declared field, a node; anything else is undeclared). -/

/-- Toy reading of the `kind` field from the bytes after the first. -/
def toyKind : Bytes → String
  | [] => ""
  | k :: _ => if k = 0 then "" else if k = 1 then "Cluster" else "NotACluster"

/-- Toy `yaml.Unmarshal` into `typeMeta`. An absent field is the empty string;
a first byte above `2` stands for a document that does not parse. -/
def toyUnmarshalTypeMeta : Bytes → Except GoError typeMeta
  | [] => .ok ⟨"", ""⟩
  | a :: rest =>
    if a = 0 then .ok ⟨toyKind rest, ""⟩
    else if a = 1 then .ok ⟨toyKind rest, "kind.sigs.k8s.io/v1alpha3"⟩
    else if a = 2 then .ok ⟨toyKind rest, "bogus/v9"⟩
    else .error (.new "yaml: did not find expected node content")

/-- Toy `Decode` into a toy `v1alpha3.Cluster`, which is its number of nodes.
With known-fields checking on, an undeclared field is an error. -/
def toyDecodeCluster (knownFields : Bool) (raw : Bytes) : Except GoError Nat :=
  let fields := raw.drop 2
  if knownFields ∧ fields.any (fun f => f ≠ 1) then
    .error (.new "yaml: unmarshal errors:\n  field not found in type v1alpha3.Cluster")
  else .ok (fields.count 1)

/-- Toy dependencies: clusters are node counts, both defaulters turn an empty
cluster into a one-node cluster, the converter keeps the count. -/
def toyDeps : Deps Nat Nat where
  yamlUnmarshalTypeMeta := toyUnmarshalTypeMeta
  yamlDecodeCluster := toyDecodeCluster
  v1alpha3SetDefaultsCluster := fun n => if n = 0 then 1 else n
  Convertv1alpha3 := fun n => n
  zeroCluster := 0
  SetDefaultsCluster := fun n => if n = 0 then 1 else n

/-- Toy environment: standard input holds `stdin`, the file `kind.yaml` holds
`file`, no other file exists. -/
def toyEnv (stdin file : Bytes) : Env where
  stdin := .ok stdin
  readFile := fun p =>
    if p = "kind.yaml" then .ok file
    else .error (.new ("open " ++ p ++ ": no such file or directory"))

/-! ## The YAML decoder on the two discriminator fields

What `yaml.Unmarshal(raw, &tm)` does with a parsed document when `tm` is a
`typeMeta`, a struct of two Go string fields tagged `kind` and `apiVersion`.
Known-fields checking is off, so other keys are skipped. -/

/-- The value found under a key of the top-level mapping, as far as assigning it
to a Go string field tells values apart: no value (the key is absent or its
value is null), a scalar with its resolved tag (`!!str`, `!!int`, `!!bool`,
`!!float`, ...) and its text as written, or a sequence or mapping. -/
inductive YamlField where
  | absent
  | scalar (tag : String) (text : String)
  | collection
  deriving DecidableEq, Repr

/-- A parsed document as the decoder into `typeMeta` sees it: no document at
all (empty input), a top-level node that is not a mapping, or a mapping with
what it holds under `kind` and under `apiVersion`. -/
inductive YamlDocument where
  | empty
  | notMapping
  | mapping (kind : YamlField) (apiVersion : YamlField)
  deriving DecidableEq, Repr

/-- The part of the YAML library that stays a parameter: `parse` is everything
done before values are assigned to fields (scanning, parsing, resolving tags),
with the error for bytes that are no document; `typeError` is the
`*yaml.TypeError` reported for a document whose values do not fit. -/
structure YamlLibrary where
  parse : Bytes → Except GoError YamlDocument
  typeError : YamlDocument → GoError

/-- Assigning a field value to a Go string: no value leaves the zero value `""`,
a scalar of any tag is stored as its text, a sequence or mapping does not fit. -/
def YamlField.intoString : YamlField → Option String
  | .absent => some ""
  | .scalar _ text => some text
  | .collection => none

/-- The call `yaml.Unmarshal(raw, &tm)` for a fresh `tm : typeMeta`: a parse
error is returned as it is; an empty input leaves `tm` at its zero value; a
top-level node that is not a mapping, or a field value that does not fit a
string, is a type error. -/
def unmarshalTypeMeta (lib : YamlLibrary) (raw : Bytes) : Except GoError typeMeta :=
  match lib.parse raw with
  | .error err => .error err
  | .ok .empty => .ok ⟨"", ""⟩
  | .ok .notMapping => .error (lib.typeError .notMapping)
  | .ok (.mapping kind apiVersion) =>
    match kind.intoString, apiVersion.intoString with
    | some k, some a => .ok ⟨k, a⟩
    | _, _ => .error (lib.typeError (.mapping kind apiVersion))

/-- The unknown-apiVersion format prints its prefix and then the operand. -/
theorem Sprintf_unknown_apiVersion (a : String) :
    Sprintf "unknown apiVersion: %s" [a] = "unknown apiVersion: " ++ a := by
  apply String.ext
  simp [Sprintf, sprintfChars]

/-- The unknown-kind format prints its first operand after `unknown kind ` and
its second operand after ` for apiVersion: `. -/
theorem Sprintf_unknown_kind (x y : String) :
    Sprintf "unknown kind %s for apiVersion: %s" [x, y]
      = "unknown kind " ++ x ++ " for apiVersion: " ++ y := by
  apply String.ext
  simp [Sprintf, sprintfChars]

/-- No unknown-kind message is an unknown-apiVersion message: they differ at
their ninth character. -/
theorem Sprintf_unknown_kind_ne (x y a : String) :
    Sprintf "unknown kind %s for apiVersion: %s" [x, y]
      ≠ Sprintf "unknown apiVersion: %s" [a] := by
  rw [Sprintf_unknown_kind, Sprintf_unknown_apiVersion]
  intro h
  have hd := congrArg String.data h
  simp at hd

/-- A path that is read successfully is read in one step, from standard input
for `-` and from the named file otherwise. -/
theorem readAll_ok_trace (env : Env) (path : String) (raw : Bytes)
    (h : (readAll env path).1 = .ok raw) :
    (readAll env path).2 = [if path = "-" then Step.readStdin else Step.readFile path] := by
  unfold readAll at h ⊢
  by_cases hp : path = "-"
  · simp only [hp, if_true] at h ⊢
    cases hs : env.stdin <;> simp [hs] at h ⊢
  · simp only [hp, if_false] at h ⊢
    cases hs : env.readFile path <;> simp [hs] at h ⊢

/-- Unfolding of `Load` once the bytes are read. -/
theorem Load_of_read {V1Cluster Cluster : Type} (deps : Deps V1Cluster Cluster) (env : Env)
    (path : String) (raw : Bytes) (hpath : path ≠ "")
    (hread : (readAll env path).1 = .ok raw) :
    Load deps env path =
      match deps.yamlUnmarshalTypeMeta raw with
      | .error err =>
        (⟨none, some (Wrap err "could not determine kind / apiVersion for config")⟩,
          (readAll env path).2 ++ [Step.unmarshalTypeMeta raw])
      | .ok tm =>
        if tm.APIVersion = "kind.sigs.k8s.io/v1alpha3" then
          if tm.Kind ≠ "Cluster" then
            (⟨none, some (Errorf "unknown kind %s for apiVersion: %s" [tm.APIVersion, tm.Kind])⟩,
              (readAll env path).2
                ++ [Step.unmarshalTypeMeta raw, Step.switchAPIVersion tm.APIVersion])
          else
            match deps.yamlDecodeCluster true raw with
            | .error err =>
              (⟨none, some (Wrap err "unable to decode config")⟩,
                (readAll env path).2
                  ++ [Step.unmarshalTypeMeta raw, Step.switchAPIVersion tm.APIVersion,
                      Step.decodeCluster true raw])
            | .ok cfg =>
              (⟨some (deps.Convertv1alpha3 (deps.v1alpha3SetDefaultsCluster cfg)), none⟩,
                (readAll env path).2
                  ++ [Step.unmarshalTypeMeta raw, Step.switchAPIVersion tm.APIVersion,
                      Step.decodeCluster true raw, Step.v1alpha3SetDefaultsCluster,
                      Step.convertv1alpha3])
        else
          (⟨none, some (Errorf "unknown apiVersion: %s" [tm.APIVersion])⟩,
            (readAll env path).2
              ++ [Step.unmarshalTypeMeta raw, Step.switchAPIVersion tm.APIVersion]) := by
  unfold Load
  rw [if_neg hpath]
  rcases hra : readAll env path with ⟨r, t⟩
  rw [hra] at hread
  simp only at hread
  subst hread
  simp only
  cases hs : deps.yamlUnmarshalTypeMeta raw with
  | error err => rfl
  | ok tm =>
    simp only
    by_cases hv : tm.APIVersion = "kind.sigs.k8s.io/v1alpha3"
    · simp only [hv, if_true]
      by_cases hk : tm.Kind = "Cluster"
      · simp only [hk, ne_eq, not_true_eq_false, if_false, yamlUnmarshalStrict]
        cases hd : deps.yamlDecodeCluster true raw <;> simp
      · simp only [ne_eq, hk, not_false_eq_true, if_true]
    · simp only [hv, if_false]

/-- Unfolding of `Load` when the read fails: the read error is returned as it
is and nothing else is called. -/
theorem Load_of_read_error {V1Cluster Cluster : Type} (deps : Deps V1Cluster Cluster)
    (env : Env) (path : String) (e : GoError) (hpath : path ≠ "")
    (hread : (readAll env path).1 = .error e) :
    Load deps env path = (⟨none, some e⟩, (readAll env path).2) := by
  unfold Load
  rw [if_neg hpath]
  rcases hra : readAll env path with ⟨r, t⟩
  rw [hra] at hread
  simp only at hread
  subst hread
  rfl

/-! ## The loader's branches -/

/-- C1: for a path other than the empty one whose bytes are read, sniff to
apiVersion `kind.sigs.k8s.io/v1alpha3` and kind `Cluster`, and are decoded by
the strict decoder into `d`, `Load` returns a nil error and the document
`Convertv1alpha3 (v1alpha3.SetDefaultsCluster d)`; the calls it makes are, in
order, the read, the sniff, the dispatch, the strict decode, the defaulter and
the converter, each once and nothing else. -/
theorem Load_known_version_ok {V1Cluster Cluster : Type} (deps : Deps V1Cluster Cluster)
    (env : Env) (path : String) (raw : Bytes) (tm : typeMeta) (d : V1Cluster)
    (hpath : path ≠ "")
    (hread : (readAll env path).1 = .ok raw)
    (hsniff : deps.yamlUnmarshalTypeMeta raw = .ok tm)
    (hversion : tm.APIVersion = "kind.sigs.k8s.io/v1alpha3")
    (hkind : tm.Kind = "Cluster")
    (hdecode : (yamlUnmarshalStrict deps raw).1 = .ok d) :
    (Load deps env path).1.err = none
      ∧ (Load deps env path).1.cluster
          = some (deps.Convertv1alpha3 (deps.v1alpha3SetDefaultsCluster d))
      ∧ (Load deps env path).2
          = [if path = "-" then Step.readStdin else Step.readFile path,
             Step.unmarshalTypeMeta raw,
             Step.switchAPIVersion "kind.sigs.k8s.io/v1alpha3",
             Step.decodeCluster true raw,
             Step.v1alpha3SetDefaultsCluster,
             Step.convertv1alpha3] := by
  simp only [yamlUnmarshalStrict] at hdecode
  rw [Load_of_read deps env path raw hpath hread, readAll_ok_trace env path raw hread]
  simp [hsniff, hversion, hkind, hdecode]

/-- C1 at the toy file `kind.yaml` holding a v1alpha3 cluster with two nodes. -/
theorem Load_known_version_ok_witness :
    (Load toyDeps (toyEnv [] [1, 1, 1, 1]) "kind.yaml").1.err = none
      ∧ (Load toyDeps (toyEnv [] [1, 1, 1, 1]) "kind.yaml").1.cluster = some 2
      ∧ (Load toyDeps (toyEnv [] [1, 1, 1, 1]) "kind.yaml").2
          = [Step.readFile "kind.yaml",
             Step.unmarshalTypeMeta [1, 1, 1, 1],
             Step.switchAPIVersion "kind.sigs.k8s.io/v1alpha3",
             Step.decodeCluster true [1, 1, 1, 1],
             Step.v1alpha3SetDefaultsCluster,
             Step.convertv1alpha3] :=
  Load_known_version_ok toyDeps (toyEnv [] [1, 1, 1, 1]) "kind.yaml" [1, 1, 1, 1]
    ⟨"Cluster", "kind.sigs.k8s.io/v1alpha3"⟩ 2 (by decide) rfl rfl rfl rfl rfl

/-- C2: for a path other than the empty one whose bytes are read and sniff to
an apiVersion other than `kind.sigs.k8s.io/v1alpha3`, whatever the kind and
the bytes, `Load` returns no document and the error built from the format
`unknown apiVersion: %s` and the sniffed apiVersion, whose message is
`unknown apiVersion: ` followed by that apiVersion; after the dispatch nothing
is called, in particular no decoder. -/
theorem Load_unknown_apiVersion {V1Cluster Cluster : Type} (deps : Deps V1Cluster Cluster)
    (env : Env) (path : String) (raw : Bytes) (tm : typeMeta)
    (hpath : path ≠ "")
    (hread : (readAll env path).1 = .ok raw)
    (hsniff : deps.yamlUnmarshalTypeMeta raw = .ok tm)
    (hversion : tm.APIVersion ≠ "kind.sigs.k8s.io/v1alpha3") :
    (Load deps env path).1.cluster = none
      ∧ (Load deps env path).1.err = some (Errorf "unknown apiVersion: %s" [tm.APIVersion])
      ∧ (Errorf "unknown apiVersion: %s" [tm.APIVersion]).Error
          = "unknown apiVersion: " ++ tm.APIVersion
      ∧ (Load deps env path).2
          = [if path = "-" then Step.readStdin else Step.readFile path,
             Step.unmarshalTypeMeta raw,
             Step.switchAPIVersion tm.APIVersion] := by
  rw [Load_of_read deps env path raw hpath hread, readAll_ok_trace env path raw hread]
  simp [hsniff, hversion, Errorf, GoError.Error, Sprintf_unknown_apiVersion]

/-- C2 at the toy file `kind.yaml` holding a `bogus/v9` cluster. -/
theorem Load_unknown_apiVersion_witness :
    (Load toyDeps (toyEnv [] [2, 1]) "kind.yaml").1.cluster = none
      ∧ (Load toyDeps (toyEnv [] [2, 1]) "kind.yaml").1.err
          = some (Errorf "unknown apiVersion: %s" ["bogus/v9"])
      ∧ (Errorf "unknown apiVersion: %s" ["bogus/v9"]).Error = "unknown apiVersion: " ++ "bogus/v9"
      ∧ (Load toyDeps (toyEnv [] [2, 1]) "kind.yaml").2
          = [Step.readFile "kind.yaml", Step.unmarshalTypeMeta [2, 1],
             Step.switchAPIVersion "bogus/v9"] :=
  Load_unknown_apiVersion toyDeps (toyEnv [] [2, 1]) "kind.yaml" [2, 1]
    ⟨"Cluster", "bogus/v9"⟩ (by decide) rfl rfl (by decide)

/-- C3: for a path other than the empty one whose bytes are read and sniff to
apiVersion `kind.sigs.k8s.io/v1alpha3` and a kind other than `Cluster`, `Load`
returns no document and the error built from the unknown-kind format; its
message is not the message of any unknown-apiVersion error; the calls stop at
the dispatch, so the decoder is not called; and any other run that sniffs the
same two fields, from whatever bytes and with whatever decoder, defaulters and
converter, returns the same pair. -/
theorem Load_unknown_kind {V1Cluster Cluster : Type} (deps : Deps V1Cluster Cluster)
    (env : Env) (path : String) (raw : Bytes) (tm : typeMeta)
    (hpath : path ≠ "")
    (hread : (readAll env path).1 = .ok raw)
    (hsniff : deps.yamlUnmarshalTypeMeta raw = .ok tm)
    (hversion : tm.APIVersion = "kind.sigs.k8s.io/v1alpha3")
    (hkind : tm.Kind ≠ "Cluster") :
    (Load deps env path).1.cluster = none
      ∧ (Load deps env path).1.err
          = some (Errorf "unknown kind %s for apiVersion: %s" [tm.APIVersion, tm.Kind])
      ∧ (∀ a : String,
          (Errorf "unknown kind %s for apiVersion: %s" [tm.APIVersion, tm.Kind]).Error
            ≠ (Errorf "unknown apiVersion: %s" [a]).Error)
      ∧ (Load deps env path).2
          = [if path = "-" then Step.readStdin else Step.readFile path,
             Step.unmarshalTypeMeta raw,
             Step.switchAPIVersion "kind.sigs.k8s.io/v1alpha3"]
      ∧ (∀ (deps2 : Deps V1Cluster Cluster) (env2 : Env) (path2 : String) (raw2 : Bytes),
          path2 ≠ "" → (readAll env2 path2).1 = .ok raw2 →
          deps2.yamlUnmarshalTypeMeta raw2 = .ok tm →
          (Load deps2 env2 path2).1 = (Load deps env path).1) := by
  refine ⟨?_, ?_, ?_, ?_, ?_⟩
  · rw [Load_of_read deps env path raw hpath hread]
    simp [hsniff, hversion, hkind]
  · rw [Load_of_read deps env path raw hpath hread]
    simp [hsniff, hversion, hkind]
  · intro a
    simpa [Errorf, GoError.Error] using Sprintf_unknown_kind_ne tm.APIVersion tm.Kind a
  · rw [Load_of_read deps env path raw hpath hread, readAll_ok_trace env path raw hread]
    simp [hsniff, hversion, hkind]
  · intro deps2 env2 path2 raw2 hpath2 hread2 hsniff2
    rw [Load_of_read deps env path raw hpath hread,
      Load_of_read deps2 env2 path2 raw2 hpath2 hread2]
    simp [hsniff, hsniff2, hversion, hkind]

/-- C3 at the toy file `kind.yaml` holding a v1alpha3 document of kind
`NotACluster`, compared with the same document plus an undeclared field. -/
theorem Load_unknown_kind_witness :
    (Load toyDeps (toyEnv [] [1, 2]) "kind.yaml").1.cluster = none
      ∧ (Load toyDeps (toyEnv [] [1, 2]) "kind.yaml").2
          = [Step.readFile "kind.yaml", Step.unmarshalTypeMeta [1, 2],
             Step.switchAPIVersion "kind.sigs.k8s.io/v1alpha3"]
      ∧ (Load toyDeps (toyEnv [] [1, 2, 9]) "kind.yaml").1
          = (Load toyDeps (toyEnv [] [1, 2]) "kind.yaml").1 :=
  have h := Load_unknown_kind toyDeps (toyEnv [] [1, 2]) "kind.yaml" [1, 2]
    ⟨"NotACluster", "kind.sigs.k8s.io/v1alpha3"⟩ (by decide) rfl rfl rfl (by decide)
  ⟨h.1, h.2.2.2.1, h.2.2.2.2 toyDeps (toyEnv [] [1, 2, 9]) "kind.yaml" [1, 2, 9]
    (by decide) rfl rfl⟩

/-- C4: for a path other than the empty one whose bytes are read and sniff to
apiVersion `kind.sigs.k8s.io/v1alpha3` and kind `Cluster`, if the strict
decoder (the decoder with known-fields checking on) fails with `e`, then
`Load` returns no document and an error that wraps `e` with the context
`unable to decode config`: the cause it keeps is `e` itself, and it prints as
`unable to decode config: ` followed by the message of `e`; the last call is
that decode, so neither the defaulter nor the converter runs. -/
theorem Load_decode_error {V1Cluster Cluster : Type} (deps : Deps V1Cluster Cluster)
    (env : Env) (path : String) (raw : Bytes) (tm : typeMeta) (e : GoError)
    (hpath : path ≠ "")
    (hread : (readAll env path).1 = .ok raw)
    (hsniff : deps.yamlUnmarshalTypeMeta raw = .ok tm)
    (hversion : tm.APIVersion = "kind.sigs.k8s.io/v1alpha3")
    (hkind : tm.Kind = "Cluster")
    (hdecode : (yamlUnmarshalStrict deps raw).1 = .error e) :
    (Load deps env path).1.cluster = none
      ∧ (Load deps env path).1.err = some (Wrap e "unable to decode config")
      ∧ (Load deps env path).1.err.bind GoError.Unwrap = some e
      ∧ (Load deps env path).1.err.map GoError.Error
          = some ("unable to decode config: " ++ e.Error)
      ∧ (yamlUnmarshalStrict deps raw).1 = deps.yamlDecodeCluster true raw
      ∧ (Load deps env path).2
          = [if path = "-" then Step.readStdin else Step.readFile path,
             Step.unmarshalTypeMeta raw,
             Step.switchAPIVersion "kind.sigs.k8s.io/v1alpha3",
             Step.decodeCluster true raw] := by
  simp only [yamlUnmarshalStrict] at hdecode
  rw [Load_of_read deps env path raw hpath hread, readAll_ok_trace env path raw hread]
  simp [hsniff, hversion, hkind, hdecode, yamlUnmarshalStrict, Wrap, GoError.Unwrap,
    GoError.Error]

/-- C4 at the toy file `kind.yaml` holding a v1alpha3 cluster with one node and
one undeclared top-level field. -/
theorem Load_decode_error_witness :
    (Load toyDeps (toyEnv [] [1, 1, 1, 7]) "kind.yaml").1.cluster = none
      ∧ (Load toyDeps (toyEnv [] [1, 1, 1, 7]) "kind.yaml").1.err
          = some (Wrap (.new "yaml: unmarshal errors:\n  field not found in type v1alpha3.Cluster")
              "unable to decode config")
      ∧ (Load toyDeps (toyEnv [] [1, 1, 1, 7]) "kind.yaml").1.err.bind GoError.Unwrap
          = some (.new "yaml: unmarshal errors:\n  field not found in type v1alpha3.Cluster")
      ∧ (Load toyDeps (toyEnv [] [1, 1, 1, 7]) "kind.yaml").1.err.map GoError.Error
          = some ("unable to decode config: "
              ++ "yaml: unmarshal errors:\n  field not found in type v1alpha3.Cluster")
      ∧ (yamlUnmarshalStrict toyDeps [1, 1, 1, 7]).1 = toyDeps.yamlDecodeCluster true [1, 1, 1, 7]
      ∧ (Load toyDeps (toyEnv [] [1, 1, 1, 7]) "kind.yaml").2
          = [Step.readFile "kind.yaml", Step.unmarshalTypeMeta [1, 1, 1, 7],
             Step.switchAPIVersion "kind.sigs.k8s.io/v1alpha3",
             Step.decodeCluster true [1, 1, 1, 7]] :=
  Load_decode_error toyDeps (toyEnv [] [1, 1, 1, 7]) "kind.yaml" [1, 1, 1, 7]
    ⟨"Cluster", "kind.sigs.k8s.io/v1alpha3"⟩
    (.new "yaml: unmarshal errors:\n  field not found in type v1alpha3.Cluster")
    (by decide) rfl rfl rfl rfl rfl

/-- C5: `Load` on the empty path returns a nil error and the document
`config.SetDefaultsCluster` makes of the zero-value `config.Cluster`; its only
call is that defaulter (no read, no sniff, no dispatch, no decode), and the
returned pair and call log are the same for every file system, standard input
and YAML library. -/
theorem Load_empty_path {V1Cluster Cluster : Type} (deps : Deps V1Cluster Cluster)
    (env : Env) :
    (Load deps env "").1.err = none
      ∧ (Load deps env "").1.cluster = some (deps.SetDefaultsCluster deps.zeroCluster)
      ∧ (Load deps env "").2 = [Step.setDefaultsCluster]
      ∧ (∀ (env2 : Env) (sniff2 : Bytes → Except GoError typeMeta)
            (decode2 : Bool → Bytes → Except GoError V1Cluster),
          Load ⟨sniff2, decode2, deps.v1alpha3SetDefaultsCluster, deps.Convertv1alpha3,
                deps.zeroCluster, deps.SetDefaultsCluster⟩ env2 ""
            = Load deps env "") := by
  simp [Load]

/-- C7: for a file path `p` other than the empty path and `-`: when standard
input and the file at `p` hold the same bytes, `Load` on `-` and `Load` on `p`
return the same pair, and their call logs are the same list behind a first
entry that is the read of standard input for one and the read of `p` for the
other; when both reads fail with the same error, each run returns that error
wrapped, with `error reading from stdin` for one and `error reading file` for
the other; and no run of `Load` on `-` reads a file. -/
theorem Load_stdin_as_file {V1Cluster Cluster : Type} (deps : Deps V1Cluster Cluster)
    (envS envF : Env) (p : String) (hp : p ≠ "") (hp2 : p ≠ "-") :
    (∀ b : Bytes, envS.stdin = .ok b → envF.readFile p = .ok b →
        (Load deps envS "-").1 = (Load deps envF p).1
          ∧ ∃ t : List Step, (Load deps envS "-").2 = Step.readStdin :: t
              ∧ (Load deps envF p).2 = Step.readFile p :: t)
      ∧ (∀ e : GoError, envS.stdin = .error e → envF.readFile p = .error e →
          Load deps envS "-"
              = (⟨none, some (Wrap e "error reading from stdin")⟩, [Step.readStdin])
            ∧ Load deps envF p = (⟨none, some (Wrap e "error reading file")⟩, [Step.readFile p]))
      ∧ (∀ q : String, Step.readFile q ∉ (Load deps envS "-").2) := by
  have hdash : ("-" : String) ≠ "" := by decide
  refine ⟨?_, ?_, ?_⟩
  · intro b hs hf
    have hrs : (readAll envS "-").1 = .ok b := by simp [readAll, hs]
    have hrf : (readAll envF p).1 = .ok b := by simp [readAll, hp2, hf]
    rw [Load_of_read deps envS "-" b hdash hrs, Load_of_read deps envF p b hp hrf,
      readAll_ok_trace envS "-" b hrs, readAll_ok_trace envF p b hrf]
    simp only [if_true, if_neg hp2]
    cases deps.yamlUnmarshalTypeMeta b with
    | error err => simp
    | ok tm =>
      by_cases hv : tm.APIVersion = "kind.sigs.k8s.io/v1alpha3"
      · by_cases hk : tm.Kind = "Cluster"
        · cases hd : deps.yamlDecodeCluster true b <;> simp [hv, hk]
        · simp [hv, hk]
      · simp [hv]
  · intro e hs hf
    have hrs : (readAll envS "-").1 = .error (Wrap e "error reading from stdin") := by
      simp [readAll, hs]
    have hrf : (readAll envF p).1 = .error (Wrap e "error reading file") := by
      simp [readAll, hp2, hf]
    rw [Load_of_read_error deps envS "-" _ hdash hrs, Load_of_read_error deps envF p _ hp hrf]
    simp [readAll, hs, hf, hp2]
  · intro q
    cases hs : envS.stdin with
    | error e =>
      have hrs : (readAll envS "-").1 = .error (Wrap e "error reading from stdin") := by
        simp [readAll, hs]
      rw [Load_of_read_error deps envS "-" _ hdash hrs]
      simp [readAll, hs]
    | ok b =>
      have hrs : (readAll envS "-").1 = .ok b := by simp [readAll, hs]
      rw [Load_of_read deps envS "-" b hdash hrs, readAll_ok_trace envS "-" b hrs]
      cases deps.yamlUnmarshalTypeMeta b with
      | error err => simp
      | ok tm =>
        by_cases hv : tm.APIVersion = "kind.sigs.k8s.io/v1alpha3"
        · by_cases hk : tm.Kind = "Cluster"
          · cases hd : deps.yamlDecodeCluster true b <;> simp [hv, hk]
          · simp [hv, hk]
        · simp [hv]

/-- C7 at the toy environment whose standard input and whose file `kind.yaml`
both hold a v1alpha3 cluster with one node. -/
theorem Load_stdin_as_file_witness :
    (Load toyDeps (toyEnv [1, 1, 1] [1, 1, 1]) "-").1
        = (Load toyDeps (toyEnv [1, 1, 1] [1, 1, 1]) "kind.yaml").1
      ∧ (Load toyDeps (toyEnv [1, 1, 1] [1, 1, 1]) "-").1.cluster = some 1
      ∧ Step.readFile "-" ∉ (Load toyDeps (toyEnv [1, 1, 1] [1, 1, 1]) "-").2 :=
  have h := Load_stdin_as_file toyDeps (toyEnv [1, 1, 1] [1, 1, 1]) (toyEnv [1, 1, 1] [1, 1, 1])
    "kind.yaml" (by decide) (by decide)
  ⟨(h.1 [1, 1, 1] rfl rfl).1, rfl, h.2.2 "-"⟩

/-- C8: for every path, file system, standard input and library behaviour,
`Load` returns exactly one of a document and an error: a non-nil error comes
with a nil document, a nil error comes with a non-nil document, and that
document is the defaulted zero-value cluster or a result of `Convertv1alpha3`
on a defaulted v1alpha3 cluster. -/
theorem Load_document_xor_error {V1Cluster Cluster : Type} (deps : Deps V1Cluster Cluster)
    (env : Env) (path : String) :
    ((Load deps env path).1.err ≠ none → (Load deps env path).1.cluster = none)
      ∧ ((Load deps env path).1.err = none → (Load deps env path).1.cluster ≠ none)
      ∧ ((Load deps env path).1.err = none →
          (Load deps env path).1.cluster = some (deps.SetDefaultsCluster deps.zeroCluster)
            ∨ ∃ cfg : V1Cluster, (Load deps env path).1.cluster
                = some (deps.Convertv1alpha3 (deps.v1alpha3SetDefaultsCluster cfg))) := by
  by_cases hpath : path = ""
  · subst hpath
    simp [Load]
  · cases hr : (readAll env path).1 with
    | error e =>
      rw [Load_of_read_error deps env path e hpath hr]
      simp
    | ok raw =>
      rw [Load_of_read deps env path raw hpath hr]
      cases deps.yamlUnmarshalTypeMeta raw with
      | error err => simp
      | ok tm =>
        by_cases hv : tm.APIVersion = "kind.sigs.k8s.io/v1alpha3"
        · by_cases hk : tm.Kind = "Cluster"
          · cases hd : deps.yamlDecodeCluster true raw with
            | error err => simp [hv, hk]
            | ok cfg =>
              simp only [hv, hk, if_true, ne_eq, not_true_eq_false, if_false]
              exact ⟨by simp, by simp, fun _ => Or.inr ⟨cfg, rfl⟩⟩
          · simp [hv, hk]
        · simp [hv]

/-- C10: on a v1alpha3 document of kind `NotACluster` the message of the error
returned by `Load` names the apiVersion where the kind belongs and the kind
where the apiVersion belongs: it is
`unknown kind kind.sigs.k8s.io/v1alpha3 for apiVersion: NotACluster`, not
`unknown kind NotACluster for apiVersion: kind.sigs.k8s.io/v1alpha3`. -/
theorem Load_unknown_kind_message_swapped :
    (Load toyDeps (toyEnv [] [1, 2]) "kind.yaml").1.err.map GoError.Error
        = some "unknown kind kind.sigs.k8s.io/v1alpha3 for apiVersion: NotACluster"
      ∧ (Load toyDeps (toyEnv [] [1, 2]) "kind.yaml").1.err.map GoError.Error
        ≠ some "unknown kind NotACluster for apiVersion: kind.sigs.k8s.io/v1alpha3" := by
  constructor
  · rfl
  · decide

/-! ## The empty-path shortcut and the minimal document

Whether `Load` on the empty path agrees with `Load` on a document holding only
the two discriminator fields is not decided inside `load.go`: the two runs
share no code, and the lemma below reduces their agreement to an equation
between the defaulters and the converter of the `config` and `v1alpha3`
packages. -/

/-- On a document that is read, sniffs as a v1alpha3 `Cluster` and strictly
decodes to `d`, `Load` returns what it returns on the empty path exactly when
`config.SetDefaultsCluster` of the zero-value cluster is `Convertv1alpha3` of
the defaulted `d`. -/
theorem Load_empty_eq_document_iff {V1Cluster Cluster : Type}
    (deps : Deps V1Cluster Cluster) (env : Env) (path : String) (raw : Bytes)
    (tm : typeMeta) (d : V1Cluster)
    (hpath : path ≠ "")
    (hread : (readAll env path).1 = .ok raw)
    (hsniff : deps.yamlUnmarshalTypeMeta raw = .ok tm)
    (hversion : tm.APIVersion = "kind.sigs.k8s.io/v1alpha3")
    (hkind : tm.Kind = "Cluster")
    (hdecode : deps.yamlDecodeCluster true raw = .ok d) :
    (Load deps env "").1 = (Load deps env path).1
      ↔ deps.SetDefaultsCluster deps.zeroCluster
          = deps.Convertv1alpha3 (deps.v1alpha3SetDefaultsCluster d) := by
  rw [Load_of_read deps env path raw hpath hread]
  simp [Load, hsniff, hversion, hkind, hdecode]

end Encoding
